import Mathlib

/-!
Verification of the Conneclify SMS gateway server against its specification.

The definitions below are shallow embeddings of the TypeScript sources:
`server/routes.ts` (phone normalization, webhook handlers, WebSocket
subscription), `server/crypto.ts` (credential vault), the `DatabaseStorage`
accessors used by those handlers, and the SignalWire provider adapter
(retry-with-backoff).  JavaScript truthiness on optional strings and numbers
is made explicit through the `jsOr`/`jsOrElse`/`jsOrNat` helpers.
-/

namespace Conneclify

/-- JavaScript truthiness of an optional string: `undefined`/`null` and the
empty string are falsy; `jsOr o` is `none` exactly when `o` is falsy, i.e. it
models the value of `o` in a boolean context together with `o || null`. -/
def jsOr (o : Option String) : Option String :=
  match o with
  | none => none
  | some s => if s = "" then none else some s

/-- Models the JavaScript expression `a || b` on two optional strings. -/
def jsOrElse (a b : Option String) : Option String :=
  match jsOr a with
  | some s => some s
  | none => jsOr b

/-- Models `n || d` for a JavaScript number `n` (0 is falsy). -/
def jsOrNat (n d : Nat) : Nat :=
  if n = 0 then d else n

@[simp] theorem jsOrNat_zero_right (n : Nat) : jsOrNat n 0 = n := by
  unfold jsOrNat
  by_cases h : n = 0 <;> simp [h]

/-- The digit characters of a phone string: models `phone.replace(/\D/g, "")`
from `server/routes.ts`. -/
def digitsOf (phone : String) : String :=
  String.mk (phone.data.filter (fun ch => ch.isDigit))

/-- JavaScript `s.toLowerCase()`, expressed on the character sequence. -/
def jsToLower (s : String) : String :=
  String.mk (s.data.map Char.toLower)

/-- JavaScript `s.startsWith(p)`, expressed on the character sequence. -/
def jsStartsWith (s p : String) : Bool :=
  List.isPrefixOf p.data s.data

/-- Shallow embedding of `formatToE164` from `server/routes.ts` lines 18-34. -/
def formatToE164 (phone : String) : String :=
  let digits := digitsOf phone
  if jsStartsWith phone ("+") then
    "+" ++ digits
  else if digits.length = 10 then
    "+1" ++ digits
  else if digits.length = 11 && jsStartsWith digits ("1") then
    "+" ++ digits
  else
    "+" ++ digits

/-- C8: `formatToE164` satisfies the spec's rules: an input starting with `+`
returns `+` followed by the input's digits (so "+4415555123456" maps to
itself), "4155551234" maps to "+14155551234", "14155551234" maps to
"+14155551234"; a bare 10-digit sequence is prefixed "+1", an 11-digit
sequence starting with `1` is prefixed "+", and any other input is its digit
sequence prefixed with "+". -/
theorem formatToE164_spec :
    (∀ p : String, jsStartsWith p ("+") = true →
      formatToE164 p = "+" ++ digitsOf p) ∧
    formatToE164 ("+4415555123456") = "+4415555123456" ∧
    formatToE164 ("4155551234") = "+14155551234" ∧
    formatToE164 ("14155551234") = "+14155551234" ∧
    (∀ p : String, jsStartsWith p ("+") = false → (digitsOf p).length = 10 →
      formatToE164 p = "+1" ++ digitsOf p) ∧
    (∀ p : String, jsStartsWith p ("+") = false → (digitsOf p).length = 11 →
      jsStartsWith (digitsOf p) ("1") = true →
      formatToE164 p = "+" ++ digitsOf p) ∧
    (∀ p : String, jsStartsWith p ("+") = false → (digitsOf p).length ≠ 10 →
      formatToE164 p = "+" ++ digitsOf p) := by
  refine ⟨?_, by decide, by decide, by decide, ?_, ?_, ?_⟩
  · intro p hp
    simp [formatToE164, hp]
  · intro p hp h10
    simp [formatToE164, hp, h10]
  · intro p hp h11 h1
    simp [formatToE164, hp, h11, h1]
  · intro p hp h10
    simp [formatToE164, hp, h10]

/-- Witness for `formatToE164_spec`: each conditional rule applied at a
concrete input. -/
theorem formatToE164_spec_witness :
    formatToE164 ("+44 20 7946 0958") = "+" ++ digitsOf ("+44 20 7946 0958") ∧
    formatToE164 ("(415) 555-1234") = "+1" ++ digitsOf ("(415) 555-1234") ∧
    formatToE164 ("1 415 555 1234") = "+" ++ digitsOf ("1 415 555 1234") ∧
    formatToE164 ("12345") = "+" ++ digitsOf ("12345") := by
  refine ⟨?_, ?_, ?_, ?_⟩
  · exact formatToE164_spec.1 ("+44 20 7946 0958") (by decide)
  · exact formatToE164_spec.2.2.2.2.1 ("(415) 555-1234") (by decide) (by decide)
  · exact formatToE164_spec.2.2.2.2.2.1 ("1 415 555 1234") (by decide) (by decide)
      (by decide)
  · exact formatToE164_spec.2.2.2.2.2.2 ("12345") (by decide) (by decide)

/-! ## Data model

Shallow embedding of the rows from `shared/schema.ts` that the webhook and
subscription handlers touch.  Timestamps are modeled as `Nat`; nullable
columns as `Option`. -/

inductive MessageDirection where
  | inbound
  | outbound
deriving DecidableEq

inductive MessageStatus where
  | pending
  | sent
  | delivered
  | read
  | failed
deriving DecidableEq

structure PhoneNumber where
  id : String
  number : String
  adminId : Option String
  assignedTo : Option String
deriving DecidableEq

structure Conversation where
  id : String
  contactNumber : String
  contactName : Option String
  phoneNumberId : Option String
  assignedUserId : Option String
  category : String
  lastMessageAt : Option Nat
  lastMessagePreview : Option String
  unreadCount : Nat
  isPinned : Bool
  isArchived : Bool
deriving DecidableEq

structure Message where
  id : String
  conversationId : String
  senderId : Option String
  content : String
  direction : MessageDirection
  status : MessageStatus
  signalwireMessageId : Option String
deriving DecidableEq

structure SmsGateway where
  id : String
  adminId : String
  isActive : Bool
  updatedAt : Nat
deriving DecidableEq

/-- The persistent tables behind `DatabaseStorage` (`server/storage.ts`). -/
structure Storage where
  phoneNumbers : List PhoneNumber
  conversations : List Conversation
  messages : List Message
  smsGateways : List SmsGateway
deriving DecidableEq

/-! ## Storage accessors (from `DatabaseStorage` in `server/storage.ts`) -/

/-- `getPhoneNumberByNumber`: first row with the given E.164 number. -/
def getPhoneNumberByNumber (s : Storage) (number : String) : Option PhoneNumber :=
  s.phoneNumbers.find? (fun p => p.number == number)

/-- `getConversationByPhoneAndContact`: first row keyed by
`(phoneNumberId, contactNumber)`. -/
def getConversationByPhoneAndContact (s : Storage) (phoneNumberId : String)
    (contactNumber : String) : Option Conversation :=
  s.conversations.find?
    (fun c => c.phoneNumberId == some phoneNumberId && c.contactNumber == contactNumber)

/-- `getConversation`: row lookup by primary key. -/
def getConversation (s : Storage) (conversationId : String) : Option Conversation :=
  s.conversations.find? (fun c => c.id == conversationId)

/-- `getMessageBySignalwireId`: first message with the given provider id. -/
def getMessageBySignalwireId (s : Storage) (signalwireMessageId : String) : Option Message :=
  s.messages.find? (fun m => m.signalwireMessageId == some signalwireMessageId)

/-- `createConversation`: inserts a row (the generated id is part of `c`). -/
def createConversation (s : Storage) (c : Conversation) : Storage :=
  { s with conversations := s.conversations ++ [c] }

/-- `createMessage`: inserts a row. -/
def createMessage (s : Storage) (m : Message) : Storage :=
  { s with messages := s.messages ++ [m] }

/-- The fields of `Partial<Conversation>` supplied by the handlers under
verification; `none` means the field is absent from the update object. -/
structure ConversationPatch where
  contactName : Option (Option String)
  phoneNumberId : Option (Option String)
  assignedUserId : Option (Option String)
  category : Option String
  lastMessageAt : Option (Option Nat)
  lastMessagePreview : Option (Option String)
  unreadCount : Option Nat
  isPinned : Option Bool
  isArchived : Option Bool

/-- The empty update object. -/
def ConversationPatch.empty : ConversationPatch :=
  { contactName := none, phoneNumberId := none, assignedUserId := none,
    category := none, lastMessageAt := none, lastMessagePreview := none,
    unreadCount := none, isPinned := none, isArchived := none }

/-- `db.update(conversations).set(data)` applied to one row. -/
def applyConversationPatch (p : ConversationPatch) (c : Conversation) : Conversation :=
  { id := c.id
    contactNumber := c.contactNumber
    contactName := p.contactName.getD c.contactName
    phoneNumberId := p.phoneNumberId.getD c.phoneNumberId
    assignedUserId := p.assignedUserId.getD c.assignedUserId
    category := p.category.getD c.category
    lastMessageAt := p.lastMessageAt.getD c.lastMessageAt
    lastMessagePreview := p.lastMessagePreview.getD c.lastMessagePreview
    unreadCount := p.unreadCount.getD c.unreadCount
    isPinned := p.isPinned.getD c.isPinned
    isArchived := p.isArchived.getD c.isArchived }

/-- `updateConversation`: updates every row whose id matches. -/
def updateConversation (s : Storage) (conversationId : String)
    (p : ConversationPatch) : Storage :=
  { s with conversations :=
      s.conversations.map (fun c =>
        if c.id = conversationId then applyConversationPatch p c else c) }

/-- The fields of `Partial<Message>` supplied by the status webhook handler. -/
structure MessagePatch where
  status : Option MessageStatus

/-- `db.update(messages).set(data)` applied to one row. -/
def applyMessagePatch (p : MessagePatch) (m : Message) : Message :=
  { m with status := p.status.getD m.status }

/-- `updateMessage`: updates every row whose id matches. -/
def updateMessage (s : Storage) (messageId : String) (p : MessagePatch) : Storage :=
  { s with messages :=
      s.messages.map (fun m => if m.id = messageId then applyMessagePatch p m else m) }

/-! ## List lemmas used by the handler proofs -/

theorem find?_map_comm {α : Type} (u : α → α) (q : α → Bool)
    (hq : ∀ a, q (u a) = q a) (l : List α) :
    List.find? q (l.map u) = Option.map u (List.find? q l) := by
  induction l with
  | nil => rfl
  | cons a t ih =>
      simp only [List.map_cons, List.find?]
      rw [hq]
      cases h : q a <;> simp [h, ih]

theorem find?_eq_of_mem_of_nodup_keys {α : Type} (key : α → String) (l : List α)
    (a : α) (hmem : a ∈ l) (hnodup : (l.map key).Nodup) :
    List.find? (fun x => key x == key a) l = some a := by
  induction l with
  | nil => simp at hmem
  | cons b t ih =>
      rw [List.map_cons, List.nodup_cons] at hnodup
      rcases List.mem_cons.mp hmem with rfl | hmem2
      · simp [List.find?]
      · have hkey : (key b == key a) = false := by
          apply beq_eq_false_iff_ne.mpr
          intro h
          exact hnodup.1 (h ▸ List.mem_map_of_mem key hmem2)
        simp only [List.find?, hkey]
        exact ih hmem2 hnodup.2

theorem find?_append_of_none {α : Type} (q : α → Bool) (l1 l2 : List α)
    (h : List.find? q l1 = none) :
    List.find? q (l1 ++ l2) = List.find? q l2 := by
  induction l1 with
  | nil => rfl
  | cons a t ih =>
      rw [List.cons_append]
      cases h2 : q a
      · simp only [List.find?, h2] at h ⊢
        exact ih h
      · simp only [List.find?, h2] at h
        exact absurd h (Option.some_ne_none a)

theorem map_key_of_update {α : Type} (key : α → String) (u : α → α)
    (hu : ∀ a, key (u a) = key a) (l : List α) :
    (l.map u).map key = l.map key := by
  induction l with
  | nil => rfl
  | cons a t ih => simp [hu, ih]

/-! ## Inbound SMS webhook processing (`server/routes.ts` lines 1464-1504) -/

/-- The normalized inbound event, after payload-shape detection. -/
structure InboundEvent where
  fromNumber : String
  toNumber : String
  messageBody : String
  providerMessageId : String
deriving DecidableEq

inductive InboundResult where
  | phoneNotFound
  | processed (conversationId : String) (messageId : String)
deriving DecidableEq

/-- Core of the inbound webhook handler, after signature verification and
payload normalization: registry lookup (404 if unknown), find-or-create of
the conversation, message insertion, and the conversation counter/preview
update.  `newConvId`/`newMsgId` stand for the database-generated row ids and
`now` for `new Date()`. -/
def processInbound (s : Storage) (ev : InboundEvent) (newConvId : String)
    (newMsgId : String) (now : Nat) : Storage × InboundResult :=
  match getPhoneNumberByNumber s ev.toNumber with
  | none => (s, InboundResult.phoneNotFound)
  | some phoneNumber =>
    let found := getConversationByPhoneAndContact s phoneNumber.id ev.fromNumber
    let conversation : Conversation :=
      match found with
      | some c => c
      | none =>
        { id := newConvId
          contactNumber := ev.fromNumber
          contactName := none
          phoneNumberId := some phoneNumber.id
          assignedUserId := jsOr phoneNumber.assignedTo
          category := "general"
          lastMessageAt := none
          lastMessagePreview := none
          unreadCount := 0
          isPinned := false
          isArchived := false }
    let s1 : Storage :=
      match found with
      | some _ => s
      | none => createConversation s conversation
    let message : Message :=
      { id := newMsgId
        conversationId := conversation.id
        senderId := none
        content := ev.messageBody
        direction := MessageDirection.inbound
        status := MessageStatus.delivered
        signalwireMessageId := some ev.providerMessageId }
    let s2 := createMessage s1 message
    let s3 := updateConversation s2 conversation.id
      { ConversationPatch.empty with
          unreadCount := some (jsOrNat conversation.unreadCount 0 + 1)
          lastMessagePreview := some (some ev.messageBody)
          lastMessageAt := some (some now) }
    (s3, InboundResult.processed conversation.id newMsgId)

theorem updateConversation_ids (s : Storage) (cid : String) (p : ConversationPatch) :
    (updateConversation s cid p).conversations.map (fun x => x.id)
      = s.conversations.map (fun x => x.id) := by
  unfold updateConversation
  apply map_key_of_update (fun x => x.id)
    (fun c => if c.id = cid then applyConversationPatch p c else c)
  intro a
  by_cases h : a.id = cid <;> simp [h, applyConversationPatch]

theorem updateConversation_find?_key (s : Storage) (cid : String) (p : ConversationPatch) :
    List.find? (fun x => x.id == cid) (updateConversation s cid p).conversations
      = Option.map (fun a => if a.id = cid then applyConversationPatch p a else a)
          (List.find? (fun x => x.id == cid) s.conversations) := by
  unfold updateConversation
  apply find?_map_comm
    (fun c => if c.id = cid then applyConversationPatch p c else c)
    (fun x => x.id == cid)
  intro a
  by_cases h : a.id = cid <;> simp [h, applyConversationPatch]

theorem jsOr_eq_self (o : Option String) (h : o ≠ some "") : jsOr o = o := by
  cases o with
  | none => rfl
  | some s =>
      unfold jsOr
      have : s ≠ "" := fun hs => h (by rw [hs])
      simp [this]

/-- A concrete registry used by witnesses: one phone number assigned to a
team member. -/
def w1Storage : Storage :=
  { phoneNumbers :=
      [{ id := "p1", number := "+14155551234", adminId := some ("a1"),
         assignedTo := some ("m1") }],
    conversations := [], messages := [], smsGateways := [] }

/-- A concrete normalized inbound event used by witnesses. -/
def w1Event : InboundEvent :=
  { fromNumber := "+19998887777", toNumber := "+14155551234",
    messageBody := "hi", providerMessageId := "tx1" }

/-- C1: for every inbound webhook whose destination number is provisioned:
an existing conversation keyed by (phoneNumberId, contactNumber) is reused
(the set of conversation ids is unchanged), otherwise a new conversation is
created whose `assignedUserId` is the phone number's current assignee; an
inbound message with status `delivered` is appended; and the conversation's
unread count increases by exactly 1 while its last-message preview and
timestamp are updated.  If the destination number is unknown the handler
responds 404 and changes nothing. -/
theorem inbound_message_processing_spec (s : Storage) (ev : InboundEvent)
    (newConvId newMsgId : String) (now : Nat)
    (hids : (s.conversations.map (fun c => c.id)).Nodup)
    (hfresh : newConvId ∉ s.conversations.map (fun c => c.id)) :
    (getPhoneNumberByNumber s ev.toNumber = none →
      processInbound s ev newConvId newMsgId now = (s, InboundResult.phoneNotFound)) ∧
    (∀ pn c, getPhoneNumberByNumber s ev.toNumber = some pn →
      getConversationByPhoneAndContact s pn.id ev.fromNumber = some c →
      (processInbound s ev newConvId newMsgId now).2
        = InboundResult.processed c.id newMsgId ∧
      ((processInbound s ev newConvId newMsgId now).1.conversations.map (fun x => x.id))
        = s.conversations.map (fun x => x.id) ∧
      (processInbound s ev newConvId newMsgId now).1.messages
        = s.messages ++
          [{ id := newMsgId, conversationId := c.id, senderId := none,
             content := ev.messageBody, direction := MessageDirection.inbound,
             status := MessageStatus.delivered,
             signalwireMessageId := some ev.providerMessageId }] ∧
      List.find? (fun x => x.id == c.id)
          (processInbound s ev newConvId newMsgId now).1.conversations
        = some { c with unreadCount := c.unreadCount + 1,
                        lastMessagePreview := some ev.messageBody,
                        lastMessageAt := some now }) ∧
    (∀ pn, getPhoneNumberByNumber s ev.toNumber = some pn →
      getConversationByPhoneAndContact s pn.id ev.fromNumber = none →
      pn.assignedTo ≠ some "" →
      (processInbound s ev newConvId newMsgId now).2
        = InboundResult.processed newConvId newMsgId ∧
      ((processInbound s ev newConvId newMsgId now).1.conversations.map (fun x => x.id))
        = s.conversations.map (fun x => x.id) ++ [newConvId] ∧
      (processInbound s ev newConvId newMsgId now).1.messages
        = s.messages ++
          [{ id := newMsgId, conversationId := newConvId, senderId := none,
             content := ev.messageBody, direction := MessageDirection.inbound,
             status := MessageStatus.delivered,
             signalwireMessageId := some ev.providerMessageId }] ∧
      List.find? (fun x => x.id == newConvId)
          (processInbound s ev newConvId newMsgId now).1.conversations
        = some { id := newConvId, contactNumber := ev.fromNumber, contactName := none,
                 phoneNumberId := some pn.id, assignedUserId := pn.assignedTo,
                 category := "general", lastMessageAt := some now,
                 lastMessagePreview := some ev.messageBody, unreadCount := 1,
                 isPinned := false, isArchived := false }) := by
  refine ⟨?_, ?_, ?_⟩
  · intro h
    simp [processInbound, h]
  · intro pn c hpn hconv
    have hmem : c ∈ s.conversations := List.mem_of_find?_eq_some hconv
    simp only [processInbound, hpn, hconv]
    refine ⟨trivial, ?_, ?_, ?_⟩
    · rw [updateConversation_ids]
      simp [createMessage]
    · simp [updateConversation, createMessage]
    · rw [updateConversation_find?_key]
      have hfind : List.find? (fun x => x.id == c.id)
          (createMessage s
            { id := newMsgId, conversationId := c.id, senderId := none,
              content := ev.messageBody, direction := MessageDirection.inbound,
              status := MessageStatus.delivered,
              signalwireMessageId := some ev.providerMessageId }).conversations
          = some c := by
        simpa [createMessage] using
          find?_eq_of_mem_of_nodup_keys (fun x => x.id) s.conversations c hmem hids
      rw [hfind]
      simp [applyConversationPatch, ConversationPatch.empty]
  · intro pn hpn hconv hassigned
    simp only [processInbound, hpn, hconv]
    refine ⟨trivial, ?_, ?_, ?_⟩
    · rw [updateConversation_ids]
      simp [createMessage, createConversation]
    · simp [updateConversation, createMessage, createConversation]
    · rw [updateConversation_find?_key]
      have hnone : List.find? (fun x => x.id == newConvId) s.conversations = none := by
        apply List.find?_eq_none.mpr
        intro x hx
        simp only [beq_iff_eq]
        intro h
        exact hfresh (h ▸ List.mem_map_of_mem (fun c => c.id) hx)
      have hfind : List.find? (fun x => x.id == newConvId)
          (createMessage (createConversation s
            { id := newConvId, contactNumber := ev.fromNumber, contactName := none,
              phoneNumberId := some pn.id, assignedUserId := jsOr pn.assignedTo,
              category := "general", lastMessageAt := none, lastMessagePreview := none,
              unreadCount := 0, isPinned := false, isArchived := false })
            { id := newMsgId, conversationId := newConvId, senderId := none,
              content := ev.messageBody, direction := MessageDirection.inbound,
              status := MessageStatus.delivered,
              signalwireMessageId := some ev.providerMessageId }).conversations
          = some { id := newConvId, contactNumber := ev.fromNumber, contactName := none,
                   phoneNumberId := some pn.id, assignedUserId := jsOr pn.assignedTo,
                   category := "general", lastMessageAt := none, lastMessagePreview := none,
                   unreadCount := 0, isPinned := false, isArchived := false } := by
        simp only [createMessage, createConversation]
        rw [find?_append_of_none _ _ _ hnone]
        simp [List.find?]
      rw [hfind]
      simp [applyConversationPatch, ConversationPatch.empty, jsOr_eq_self _ hassigned]

/-- Witness for `inbound_message_processing_spec`: a concrete one-number
registry receiving a first inbound message, and an unknown destination. -/
theorem inbound_message_processing_spec_witness :
    ((processInbound w1Storage w1Event ("c1") ("m2") 5).2
        = InboundResult.processed ("c1") ("m2") ∧
      ((processInbound w1Storage w1Event ("c1") ("m2") 5).1.conversations.map
          (fun x => x.id))
        = w1Storage.conversations.map (fun x => x.id) ++ ["c1"] ∧
      (processInbound w1Storage w1Event ("c1") ("m2") 5).1.messages
        = w1Storage.messages ++
          [{ id := "m2", conversationId := "c1", senderId := none,
             content := "hi", direction := MessageDirection.inbound,
             status := MessageStatus.delivered,
             signalwireMessageId := some ("tx1") }] ∧
      List.find? (fun x => x.id == "c1")
          (processInbound w1Storage w1Event ("c1") ("m2") 5).1.conversations
        = some { id := "c1", contactNumber := "+19998887777", contactName := none,
                 phoneNumberId := some ("p1"), assignedUserId := some ("m1"),
                 category := "general", lastMessageAt := some 5,
                 lastMessagePreview := some ("hi"), unreadCount := 1,
                 isPinned := false, isArchived := false }) ∧
    processInbound w1Storage
        { w1Event with toNumber := "+15550000000" } ("c1") ("m2") 5
      = (w1Storage, InboundResult.phoneNotFound) := by
  constructor
  · exact (inbound_message_processing_spec w1Storage w1Event ("c1") ("m2") 5
      (by decide) (by decide)).2.2
      { id := "p1", number := "+14155551234", adminId := some ("a1"),
        assignedTo := some ("m1") }
      (by decide) (by decide) (by decide)
  · exact (inbound_message_processing_spec w1Storage
      { w1Event with toNumber := "+15550000000" } ("c1") ("m2") 5
      (by decide) (by decide)).1 (by decide)

/-- `setActiveSmsGateway` from `server/storage.ts` lines 754-769: first
deactivate every gateway of the admin, then activate the row matching both
the selected gateway id and the admin id, returning the activated row if
any.  `now` models `new Date()` written to `updatedAt`. -/
def setActiveSmsGateway (s : Storage) (adminId : String) (gatewayId : String)
    (now : Nat) : Storage × Option SmsGateway :=
  let deactivated := s.smsGateways.map (fun g =>
    if g.adminId = adminId then { g with isActive := false, updatedAt := now } else g)
  let activated := deactivated.map (fun g =>
    if g.id = gatewayId ∧ g.adminId = adminId then
      { g with isActive := true, updatedAt := now }
    else g)
  ({ s with smsGateways := activated },
   (activated.filter (fun g => g.id == gatewayId && g.adminId == adminId)).head?)

theorem setActiveSmsGateway_gateways (s : Storage) (adminId gatewayId : String)
    (now : Nat) :
    (setActiveSmsGateway s adminId gatewayId now).1.smsGateways
      = s.smsGateways.map (fun g =>
          if g.adminId = adminId then
            (if g.id = gatewayId then { g with isActive := true, updatedAt := now }
             else { g with isActive := false, updatedAt := now })
          else g) := by
  unfold setActiveSmsGateway
  simp only [List.map_map]
  apply List.map_congr_left
  intro g _
  by_cases ha : g.adminId = adminId <;> by_cases hi : g.id = gatewayId <;>
    simp [ha, hi, Function.comp]

theorem filter_gateway_singleton (l : List SmsGateway) (adminId gatewayId : String)
    (g0 : SmsGateway) (hmem : g0 ∈ l) (hid : g0.id = gatewayId)
    (hadm : g0.adminId = adminId) (hnodup : (l.map (fun g => g.id)).Nodup) :
    l.filter (fun g => g.id == gatewayId && g.adminId == adminId) = [g0] := by
  induction l with
  | nil => simp at hmem
  | cons b t ih =>
      rw [List.map_cons, List.nodup_cons] at hnodup
      rcases List.mem_cons.mp hmem with rfl | hmem2
      · have ht : t.filter (fun g => g.id == gatewayId && g.adminId == adminId) = [] := by
          apply List.filter_eq_nil_iff.mpr
          intro x hx
          simp only [Bool.and_eq_true, beq_iff_eq, not_and]
          intro hxid _
          exact hnodup.1 (hid ▸ hxid ▸ List.mem_map_of_mem (fun g => g.id) hx)
        simp [List.filter_cons, hid, hadm, ht]
      · have hb : (b.id == gatewayId) = false := by
          apply beq_eq_false_iff_ne.mpr
          intro h
          refine hnodup.1 ?_
          rw [h, ← hid]
          exact List.mem_map_of_mem (fun g => g.id) hmem2
        simp only [List.filter_cons, hb, Bool.false_and]
        simp only [if_neg (Bool.false_ne_true)]
        exact ih hmem2 hnodup.2


/-! ## Webhook payloads and the status webhook (`server/routes.ts` 1588-1690) -/

/-- One element of a Telnyx `payload.to` array. -/
structure TelnyxToItem where
  phone_number : Option String
  status : Option String
deriving DecidableEq

/-- The JavaScript value of `payload.to`: absent, a plain string, or an
array of receiver objects. -/
inductive TelnyxTo where
  | missing
  | str (s : String)
  | arr (items : List TelnyxToItem)
deriving DecidableEq

/-- The fields of a Telnyx `data.payload` envelope read by the handlers;
`fromPhoneNumber` models the optional chain `payload.from?.phone_number`. -/
structure TelnyxPayload where
  fromPhoneNumber : Option String
  toRecipients : TelnyxTo
  text : Option String
  id : Option String
deriving DecidableEq

/-- The request-body fields read by the two webhook handlers (`none` models
an absent field); `dataPayload` models `req.body.data?.payload`. -/
structure WebhookBody where
  From : Option String
  To : Option String
  Body : Option String
  MessageSid : Option String
  SmsSid : Option String
  MessageStatus : Option String
  SmsStatus : Option String
  ErrorCode : Option String
  dataPayload : Option TelnyxPayload
deriving DecidableEq

/-- The Twilio/SignalWire branch of the status `switch` (`routes.ts`
1598-1617). -/
def mapTwilioRawStatus (rawStatus : String) : MessageStatus :=
  if rawStatus = "queued" ∨ rawStatus = "accepted" then MessageStatus.pending
  else if rawStatus = "sending" ∨ rawStatus = "sent" then MessageStatus.sent
  else if rawStatus = "delivered" then MessageStatus.delivered
  else if rawStatus = "undelivered" ∨ rawStatus = "failed" then MessageStatus.failed
  else MessageStatus.sent

/-- The Telnyx branch of the status `switch` (`routes.ts` 1625-1642). -/
def mapTelnyxRawStatus (rawStatus : String) : MessageStatus :=
  if rawStatus = "queued" then MessageStatus.pending
  else if rawStatus = "sending" ∨ rawStatus = "sent" then MessageStatus.sent
  else if rawStatus = "delivered" then MessageStatus.delivered
  else if rawStatus = "delivery_failed" ∨ rawStatus = "sending_failed" then
    MessageStatus.failed
  else MessageStatus.sent

/-- The JavaScript expression `payload.to?.[0]?.status || ""`. -/
def telnyxFirstStatus : TelnyxTo → String
  | TelnyxTo.missing => ""
  | TelnyxTo.str _ => ""
  | TelnyxTo.arr items =>
      match items.head? with
      | some item => (jsOr item.status).getD ""
      | none => ""

/-- The normalized status event. -/
structure StatusEvent where
  providerMessageId : String
  status : MessageStatus
  errorCode : Option String
deriving DecidableEq

/-- Payload-shape detection and raw-status mapping of the status webhook
(`routes.ts` 1588-1647); the error case is the unrecognized-shape 400. -/
def normalizeStatus (b : WebhookBody) : Except Unit StatusEvent :=
  match jsOrElse b.MessageSid b.SmsSid with
  | some pmid =>
      let rawStatus := jsToLower ((jsOrElse b.MessageStatus b.SmsStatus).getD "")
      Except.ok
        { providerMessageId := pmid
          status := mapTwilioRawStatus rawStatus
          errorCode :=
            if rawStatus = "undelivered" ∨ rawStatus = "failed" then jsOr b.ErrorCode
            else none }
  | none =>
    match b.dataPayload with
    | some payload =>
        let rawStatus := jsToLower (telnyxFirstStatus payload.toRecipients)
        Except.ok
          { providerMessageId := (jsOr payload.id).getD ""
            status := mapTelnyxRawStatus rawStatus
            errorCode := none }
    | none => Except.error ()

inductive StatusResult where
  | updated (messageId : String) (conversationId : String)
  | messageNotFound
deriving DecidableEq

/-- Message lookup and unconditional status update (`routes.ts` 1649-1685). -/
def processStatus (s : Storage) (ev : StatusEvent) : Storage × StatusResult :=
  match getMessageBySignalwireId s ev.providerMessageId with
  | none => (s, StatusResult.messageNotFound)
  | some m =>
      (updateMessage s m.id { status := some ev.status },
       StatusResult.updated m.id m.conversationId)

/-- HTTP responses produced by the webhook handlers. -/
inductive HttpResponse where
  | ok
  | badRequest
  | unauthorized
  | notFound
  | okXml
  | serverError
deriving DecidableEq

/-- The status webhook handler after signature verification: normalize the
shape, apply the update, and respond 200 whether or not the message id was
found (400 only on an unrecognized shape). -/
def statusAfterVerification (b : WebhookBody) (s : Storage) : Storage × HttpResponse :=
  match normalizeStatus b with
  | Except.error _ => (s, HttpResponse.badRequest)
  | Except.ok ev => ((processStatus s ev).1, HttpResponse.ok)

theorem updateMessage_ids (s : Storage) (mid : String) (p : MessagePatch) :
    (updateMessage s mid p).messages.map (fun x => x.id)
      = s.messages.map (fun x => x.id) := by
  unfold updateMessage
  apply map_key_of_update (fun x => x.id)
    (fun m => if m.id = mid then applyMessagePatch p m else m)
  intro a
  by_cases h : a.id = mid <;> simp [h, applyMessagePatch]

theorem updateMessage_find?_key (s : Storage) (mid : String) (p : MessagePatch) :
    List.find? (fun x => x.id == mid) (updateMessage s mid p).messages
      = Option.map (fun a => if a.id = mid then applyMessagePatch p a else a)
          (List.find? (fun x => x.id == mid) s.messages) := by
  unfold updateMessage
  apply find?_map_comm
    (fun m => if m.id = mid then applyMessagePatch p m else m)
    (fun x => x.id == mid)
  intro a
  by_cases h : a.id = mid <;> simp [h, applyMessagePatch]

/-- C4 (amended): the raw-status mapping of the status webhook is
shape-specific.  In the Twilio/SignalWire shape: queued|accepted map to
pending, sending|sent to sent, delivered to delivered, undelivered|failed to
failed, and every other raw value (including delivery_failed and
sending_failed) to sent.  In the Telnyx shape: queued maps to pending,
sending|sent to sent, delivered to delivered,
delivery_failed|sending_failed to failed, and every other raw value
(including accepted, failed and undelivered) to sent.  The Twilio mapping is
applied exactly when `MessageSid || SmsSid` is truthy, the Telnyx mapping
when it is not and `data.payload` is present. -/
theorem status_mapping_per_shape :
    (mapTwilioRawStatus "queued" = MessageStatus.pending ∧
     mapTwilioRawStatus "accepted" = MessageStatus.pending ∧
     mapTwilioRawStatus "sending" = MessageStatus.sent ∧
     mapTwilioRawStatus "sent" = MessageStatus.sent ∧
     mapTwilioRawStatus "delivered" = MessageStatus.delivered ∧
     mapTwilioRawStatus "undelivered" = MessageStatus.failed ∧
     mapTwilioRawStatus "failed" = MessageStatus.failed) ∧
    (∀ r, r ∉ (["queued", "accepted", "sending", "sent", "delivered",
        "undelivered", "failed"] : List String) →
      mapTwilioRawStatus r = MessageStatus.sent) ∧
    (mapTelnyxRawStatus "queued" = MessageStatus.pending ∧
     mapTelnyxRawStatus "sending" = MessageStatus.sent ∧
     mapTelnyxRawStatus "sent" = MessageStatus.sent ∧
     mapTelnyxRawStatus "delivered" = MessageStatus.delivered ∧
     mapTelnyxRawStatus "delivery_failed" = MessageStatus.failed ∧
     mapTelnyxRawStatus "sending_failed" = MessageStatus.failed) ∧
    (∀ r, r ∉ (["queued", "sending", "sent", "delivered", "delivery_failed",
        "sending_failed"] : List String) →
      mapTelnyxRawStatus r = MessageStatus.sent) ∧
    (mapTelnyxRawStatus "accepted" = MessageStatus.sent ∧
     mapTelnyxRawStatus "failed" = MessageStatus.sent ∧
     mapTelnyxRawStatus "undelivered" = MessageStatus.sent ∧
     mapTwilioRawStatus "delivery_failed" = MessageStatus.sent ∧
     mapTwilioRawStatus "sending_failed" = MessageStatus.sent) ∧
    (∀ b pmid, jsOrElse b.MessageSid b.SmsSid = some pmid →
      (normalizeStatus b).map (fun ev => ev.status)
        = Except.ok (mapTwilioRawStatus
            (jsToLower ((jsOrElse b.MessageStatus b.SmsStatus).getD "")))) ∧
    (∀ b payload, jsOrElse b.MessageSid b.SmsSid = none →
      b.dataPayload = some payload →
      (normalizeStatus b).map (fun ev => ev.status)
        = Except.ok (mapTelnyxRawStatus
            (jsToLower (telnyxFirstStatus payload.toRecipients)))) := by
  refine ⟨by decide, ?_, by decide, ?_, by decide, ?_, ?_⟩
  · intro r hr
    simp only [List.mem_cons, List.not_mem_nil, or_false, not_or] at hr
    obtain ⟨h1, h2, h3, h4, h5, h6, h7⟩ := hr
    simp [mapTwilioRawStatus, h1, h2, h3, h4, h5, h6, h7]
  · intro r hr
    simp only [List.mem_cons, List.not_mem_nil, or_false, not_or] at hr
    obtain ⟨h1, h2, h3, h4, h5, h6⟩ := hr
    simp [mapTelnyxRawStatus, h1, h2, h3, h4, h5, h6]
  · intro b pmid h
    simp [normalizeStatus, h, Except.map]
  · intro b payload h hp
    simp [normalizeStatus, h, hp, Except.map]

/-- A Telnyx-shaped status webhook body reporting raw status "accepted". -/
def telnyxAcceptedBody : WebhookBody :=
  { From := none, To := none, Body := none, MessageSid := none, SmsSid := none,
    MessageStatus := none, SmsStatus := none, ErrorCode := none,
    dataPayload := some
      { fromPhoneNumber := none,
        toRecipients := TelnyxTo.arr [{ phone_number := none, status := some ("accepted") }],
        text := none, id := some ("x1") } }

/-- Counterexample to C4 as stated: in the Telnyx payload shape the raw
status "accepted" is mapped to `sent`, not to `pending` as the claimed
shape-independent table requires. -/
theorem status_mapping_cex :
    normalizeStatus telnyxAcceptedBody
      = Except.ok { providerMessageId := "x1", status := MessageStatus.sent,
                    errorCode := none } ∧
    MessageStatus.sent ≠ MessageStatus.pending := by
  refine ⟨?_, by decide⟩
  rfl

/-- A Twilio-shaped status webhook body with raw status "SENT". -/
def twilioSentBody : WebhookBody :=
  { From := none, To := none, Body := none, MessageSid := some ("sid9"),
    SmsSid := none, MessageStatus := some ("SENT"), SmsStatus := none,
    ErrorCode := none, dataPayload := none }

/-- Witness for `status_mapping_per_shape`: the conditional conjuncts applied
at concrete raw values and bodies. -/
theorem status_mapping_per_shape_witness :
    mapTwilioRawStatus "bizarre" = MessageStatus.sent ∧
    mapTelnyxRawStatus "bizarre" = MessageStatus.sent ∧
    (normalizeStatus twilioSentBody).map (fun ev => ev.status)
      = Except.ok (mapTwilioRawStatus
          (jsToLower ((jsOrElse twilioSentBody.MessageStatus
            twilioSentBody.SmsStatus).getD ""))) ∧
    (normalizeStatus telnyxAcceptedBody).map (fun ev => ev.status)
      = Except.ok (mapTelnyxRawStatus
          (jsToLower (telnyxFirstStatus
            (TelnyxTo.arr [{ phone_number := none, status := some ("accepted") }])))) := by
  refine ⟨?_, ?_, ?_, ?_⟩
  · exact status_mapping_per_shape.2.1 ("bizarre") (by decide)
  · exact status_mapping_per_shape.2.2.2.1 ("bizarre") (by decide)
  · exact status_mapping_per_shape.2.2.2.2.2.1 twilioSentBody ("sid9") (by decide)
  · exact status_mapping_per_shape.2.2.2.2.2.2 telnyxAcceptedBody
      { fromPhoneNumber := none,
        toRecipients := TelnyxTo.arr [{ phone_number := none, status := some ("accepted") }],
        text := none, id := some ("x1") }
      (by decide) (by decide)

/-- C5: for a status webhook in a recognized shape the handler always
responds 200; when no stored message carries the provider id, no state
changes; when one does, the mapped status is persisted unconditionally,
whatever the message's current status. -/
theorem status_webhook_idempotent_update (s : Storage) (b : WebhookBody)
    (ev : StatusEvent)
    (hmids : (s.messages.map (fun m => m.id)).Nodup)
    (hshape : normalizeStatus b = Except.ok ev) :
    (statusAfterVerification b s).2 = HttpResponse.ok ∧
    (getMessageBySignalwireId s ev.providerMessageId = none →
      statusAfterVerification b s = (s, HttpResponse.ok)) ∧
    (∀ m, getMessageBySignalwireId s ev.providerMessageId = some m →
      (statusAfterVerification b s).1.messages.map (fun x => x.id)
        = s.messages.map (fun x => x.id) ∧
      List.find? (fun x => x.id == m.id) (statusAfterVerification b s).1.messages
        = some { m with status := ev.status }) := by
  refine ⟨?_, ?_, ?_⟩
  · simp [statusAfterVerification, hshape]
  · intro hnone
    simp [statusAfterVerification, hshape, processStatus, hnone]
  · intro m hm
    have hmem : m ∈ s.messages := List.mem_of_find?_eq_some hm
    constructor
    · simp only [statusAfterVerification, hshape, processStatus, hm]
      rw [updateMessage_ids]
    · simp only [statusAfterVerification, hshape, processStatus, hm]
      rw [updateMessage_find?_key]
      rw [find?_eq_of_mem_of_nodup_keys (fun x => x.id) s.messages m hmem hmids]
      simp [applyMessagePatch]

/-- One delivered outbound message, as stored; used by the C5 witness. -/
def w5Storage : Storage :=
  { phoneNumbers := [], conversations := [], smsGateways := [],
    messages :=
      [{ id := "mm1", conversationId := "c1", senderId := some ("u1"),
         content := "yo", direction := MessageDirection.outbound,
         status := MessageStatus.delivered, signalwireMessageId := some ("sw1") }] }

/-- A Twilio-shaped status webhook reporting "failed" for `sw1`. -/
def twilioFailedBody : WebhookBody :=
  { From := none, To := none, Body := none, MessageSid := some ("sw1"),
    SmsSid := none, MessageStatus := some ("failed"), SmsStatus := none,
    ErrorCode := none, dataPayload := none }

/-- A Twilio-shaped status webhook for an unknown provider message id. -/
def twilioUnknownBody : WebhookBody :=
  { From := none, To := none, Body := none, MessageSid := some ("nope"),
    SmsSid := none, MessageStatus := some ("delivered"), SmsStatus := none,
    ErrorCode := none, dataPayload := none }

/-- Witness for `status_webhook_idempotent_update`: a later "failed" webhook
overwrites a message already marked delivered, and an unknown id is a 200
no-op. -/
theorem status_webhook_idempotent_update_witness :
    (statusAfterVerification twilioFailedBody w5Storage).2 = HttpResponse.ok ∧
    (statusAfterVerification twilioFailedBody w5Storage).1.messages.map
        (fun x => x.id)
      = w5Storage.messages.map (fun x => x.id) ∧
    List.find? (fun x => x.id == "mm1")
        (statusAfterVerification twilioFailedBody w5Storage).1.messages
      = some { id := "mm1", conversationId := "c1", senderId := some ("u1"),
               content := "yo", direction := MessageDirection.outbound,
               status := MessageStatus.failed,
               signalwireMessageId := some ("sw1") } ∧
    statusAfterVerification twilioUnknownBody w5Storage
      = (w5Storage, HttpResponse.ok) := by
  have h := status_webhook_idempotent_update w5Storage twilioFailedBody
    { providerMessageId := "sw1", status := MessageStatus.failed,
      errorCode := none } (by decide) rfl
  have hm := h.2.2
    { id := "mm1", conversationId := "c1", senderId := some ("u1"),
      content := "yo", direction := MessageDirection.outbound,
      status := MessageStatus.delivered, signalwireMessageId := some ("sw1") }
    (by decide)
  have h2 := status_webhook_idempotent_update w5Storage twilioUnknownBody
    { providerMessageId := "nope", status := MessageStatus.delivered,
      errorCode := none } (by decide) rfl
  exact ⟨h.1, hm.1, hm.2, h2.2.1 (by decide)⟩

/-! ## Webhook signature verification and full handlers
(`server/routes.ts` 119-152, 1401-1548, 1551-1690) -/

/-- `verifyTwilioSignature` (`routes.ts` 119-135): HMAC-SHA1 over
URL + raw body with the auth token, base64-encoded, compared to the header.
The HMAC itself is the external Node `crypto` primitive, passed in as
`hmacSha1Base64 key message`. -/
def verifyTwilioSignature (hmacSha1Base64 : String → String → String)
    (requestUrl : String) (body : String) (signature : String)
    (authToken : String) : Bool :=
  hmacSha1Base64 authToken (requestUrl ++ body) == signature

/-- `verifySignalWireSignature` (`routes.ts` 137-152): HMAC-SHA256 over the
raw body alone, hex-encoded. -/
def verifySignalWireSignature (hmacSha256Hex : String → String → String)
    (body : String) (signature : String) (token : String) : Bool :=
  hmacSha256Hex token body == signature

/-- Server-side webhook secrets from the process environment. -/
structure WebhookEnv where
  twilioAuthToken : Option String
  signalwireToken : Option String

/-- The signature headers of a webhook request. -/
structure WebhookHeaders where
  twilioSignature : Option String
  signalwireSignature : Option String

/-- The signature gate shared by both webhook handlers (`routes.ts`
1409-1434 and 1559-1584): a truthy header must verify against the
corresponding secret, and a missing or empty secret fails the check; a
falsy header skips its check. -/
def signatureGatePasses (hmacSha1Base64 hmacSha256Hex : String → String → String)
    (env : WebhookEnv) (requestUrl : String) (headers : WebhookHeaders)
    (rawBody : String) : Bool :=
  (match jsOr headers.twilioSignature with
   | none => true
   | some sig =>
     match jsOr env.twilioAuthToken with
     | none => false
     | some tok =>
       verifyTwilioSignature hmacSha1Base64 requestUrl rawBody sig tok) &&
  (match jsOr headers.signalwireSignature with
   | none => true
   | some sig =>
     match jsOr env.signalwireToken with
     | none => false
     | some tok => verifySignalWireSignature hmacSha256Hex rawBody sig tok)

/-- The JavaScript expression
`payload.to?.[0]?.phone_number || payload.to || ""` as fed to
`formatToE164`: when `payload.to` is an array whose first element has no
truthy phone_number (or is absent), the fallback value is the array object
itself and `formatToE164` throws a TypeError (the `.error` case, caught by
the handler's catch-all 500). -/
def telnyxToPhone : TelnyxTo → Except Unit String
  | TelnyxTo.missing => Except.ok ""
  | TelnyxTo.str s => Except.ok s
  | TelnyxTo.arr items =>
      match items.head? with
      | some item =>
        match jsOr item.phone_number with
        | some p => Except.ok p
        | none => Except.error ()
      | none => Except.error ()

inductive InboundNormOutcome where
  | event (ev : InboundEvent)
  | unknownFormat
  | thrown
deriving DecidableEq

/-- Payload-shape detection and normalization of the inbound webhook
(`routes.ts` 1439-1462): Twilio/SignalWire form fields first (`From` and
`To` truthy and `Body` present), else the Telnyx `data.payload` envelope,
else an unknown-format 400. -/
def normalizeInbound (b : WebhookBody) : InboundNormOutcome :=
  match jsOr b.From, jsOr b.To, b.Body with
  | some f, some t, some bodyText =>
      InboundNormOutcome.event
        { fromNumber := formatToE164 f
          toNumber := formatToE164 t
          messageBody := bodyText
          providerMessageId := (jsOrElse b.MessageSid b.SmsSid).getD "" }
  | _, _, _ =>
    match b.dataPayload with
    | some payload =>
      match telnyxToPhone payload.toRecipients with
      | Except.error _ => InboundNormOutcome.thrown
      | Except.ok toRaw =>
          InboundNormOutcome.event
            { fromNumber := formatToE164 ((jsOr payload.fromPhoneNumber).getD "")
              toNumber := formatToE164 toRaw
              messageBody := (jsOr payload.text).getD ""
              providerMessageId := (jsOr payload.id).getD "" }
    | none => InboundNormOutcome.unknownFormat

/-- The inbound webhook handler after signature verification. -/
def inboundAfterVerification (b : WebhookBody) (s : Storage)
    (newConvId newMsgId : String) (now : Nat) : Storage × HttpResponse :=
  match normalizeInbound b with
  | InboundNormOutcome.unknownFormat => (s, HttpResponse.badRequest)
  | InboundNormOutcome.thrown => (s, HttpResponse.serverError)
  | InboundNormOutcome.event ev =>
    match processInbound s ev newConvId newMsgId now with
    | (s2, InboundResult.phoneNotFound) => (s2, HttpResponse.notFound)
    | (s2, InboundResult.processed _ _) => (s2, HttpResponse.okXml)

/-- The full inbound webhook handler (`routes.ts` 1401-1548): missing raw
body is a 400, then the signature gate, then normalization and
processing. -/
def handleInboundWebhook (hmacSha1Base64 hmacSha256Hex : String → String → String)
    (env : WebhookEnv) (requestUrl : String) (headers : WebhookHeaders)
    (rawBody : Option String) (b : WebhookBody) (s : Storage)
    (newConvId newMsgId : String) (now : Nat) : Storage × HttpResponse :=
  match rawBody with
  | none => (s, HttpResponse.badRequest)
  | some raw =>
    if signatureGatePasses hmacSha1Base64 hmacSha256Hex env requestUrl headers raw then
      inboundAfterVerification b s newConvId newMsgId now
    else (s, HttpResponse.unauthorized)

/-- The full status webhook handler (`routes.ts` 1551-1690). -/
def handleStatusWebhook (hmacSha1Base64 hmacSha256Hex : String → String → String)
    (env : WebhookEnv) (requestUrl : String) (headers : WebhookHeaders)
    (rawBody : Option String) (b : WebhookBody) (s : Storage) :
    Storage × HttpResponse :=
  match rawBody with
  | none => (s, HttpResponse.badRequest)
  | some raw =>
    if signatureGatePasses hmacSha1Base64 hmacSha256Hex env requestUrl headers raw then
      statusAfterVerification b s
    else (s, HttpResponse.unauthorized)

/-- C6: for both webhook endpoints, when neither signature header is
present the body is processed with no signature check; when a header
carries a (non-empty) signature and the corresponding server-side secret is
missing/empty or the computed HMAC does not equal the header value, the
handler responds 401 and performs no processing (the store is returned
unchanged).  An empty-string header value is falsy in JavaScript and is
treated by the code exactly like an absent header. -/
theorem webhook_signature_gate (h1 h2 : String → String → String)
    (env : WebhookEnv) (url raw : String) (headers : WebhookHeaders)
    (b : WebhookBody) (s : Storage) (newConvId newMsgId : String) (now : Nat) :
    (headers.twilioSignature = none → headers.signalwireSignature = none →
      handleInboundWebhook h1 h2 env url headers (some raw) b s newConvId newMsgId now
        = inboundAfterVerification b s newConvId newMsgId now ∧
      handleStatusWebhook h1 h2 env url headers (some raw) b s
        = statusAfterVerification b s) ∧
    (∀ sig, jsOr headers.twilioSignature = some sig →
      (jsOr env.twilioAuthToken = none ∨
        (∀ tok, jsOr env.twilioAuthToken = some tok → h1 tok (url ++ raw) ≠ sig)) →
      handleInboundWebhook h1 h2 env url headers (some raw) b s newConvId newMsgId now
        = (s, HttpResponse.unauthorized) ∧
      handleStatusWebhook h1 h2 env url headers (some raw) b s
        = (s, HttpResponse.unauthorized)) ∧
    (∀ sig, jsOr headers.signalwireSignature = some sig →
      (jsOr env.signalwireToken = none ∨
        (∀ tok, jsOr env.signalwireToken = some tok → h2 tok raw ≠ sig)) →
      handleInboundWebhook h1 h2 env url headers (some raw) b s newConvId newMsgId now
        = (s, HttpResponse.unauthorized) ∧
      handleStatusWebhook h1 h2 env url headers (some raw) b s
        = (s, HttpResponse.unauthorized)) := by
  refine ⟨?_, ?_, ?_⟩
  · intro ht hs
    have hgate : signatureGatePasses h1 h2 env url headers raw = true := by
      unfold signatureGatePasses
      rw [ht, hs]
      rfl
    constructor <;> simp [handleInboundWebhook, handleStatusWebhook, hgate]
  · intro sig hsig hbad
    have hgate : signatureGatePasses h1 h2 env url headers raw = false := by
      unfold signatureGatePasses
      rw [hsig]
      rcases hbad with hnone | hne
      · rw [hnone]
        simp
      · cases hjs : jsOr env.twilioAuthToken with
        | none => simp
        | some tok =>
            have hv : verifyTwilioSignature h1 url raw sig tok = false := by
              unfold verifyTwilioSignature
              exact beq_eq_false_iff_ne.mpr (hne tok hjs)
            simp [hv]
    constructor <;> simp [handleInboundWebhook, handleStatusWebhook, hgate]
  · intro sig hsig hbad
    have hgate : signatureGatePasses h1 h2 env url headers raw = false := by
      unfold signatureGatePasses
      rw [hsig]
      rcases hbad with hnone | hne
      · rw [hnone]
        simp
      · cases hjs : jsOr env.signalwireToken with
        | none => simp
        | some tok =>
            have hv : verifySignalWireSignature h2 raw sig tok = false := by
              unfold verifySignalWireSignature
              exact beq_eq_false_iff_ne.mpr (hne tok hjs)
            simp [hv]
    constructor <;> simp [handleInboundWebhook, handleStatusWebhook, hgate]

/-- Witness for `webhook_signature_gate`: no headers processes normally; a
mismatched Twilio signature and a SignalWire signature with no configured
secret are both rejected with 401. -/
theorem webhook_signature_gate_witness :
    (handleInboundWebhook (fun k m => k ++ m) (fun k m => k ++ m)
        { twilioAuthToken := some ("tok"), signalwireToken := none } ("/u")
        { twilioSignature := none, signalwireSignature := none }
        (some ("rawbody")) twilioSentBody w5Storage ("c9") ("m9") 3
      = inboundAfterVerification twilioSentBody w5Storage ("c9") ("m9") 3) ∧
    (handleStatusWebhook (fun k m => k ++ m) (fun k m => k ++ m)
        { twilioAuthToken := some ("tok"), signalwireToken := none } ("/u")
        { twilioSignature := none, signalwireSignature := none }
        (some ("rawbody")) twilioSentBody w5Storage
      = statusAfterVerification twilioSentBody w5Storage) ∧
    (handleInboundWebhook (fun k m => k ++ m) (fun k m => k ++ m)
        { twilioAuthToken := some ("tok"), signalwireToken := none } ("/u")
        { twilioSignature := some ("bad"), signalwireSignature := none }
        (some ("rawbody")) twilioSentBody w5Storage ("c9") ("m9") 3
      = (w5Storage, HttpResponse.unauthorized)) ∧
    (handleStatusWebhook (fun k m => k ++ m) (fun k m => k ++ m)
        { twilioAuthToken := some ("tok"), signalwireToken := none } ("/u")
        { twilioSignature := none, signalwireSignature := some ("swsig") }
        (some ("rawbody")) twilioSentBody w5Storage
      = (w5Storage, HttpResponse.unauthorized)) := by
  have hopen := (webhook_signature_gate (fun k m => k ++ m) (fun k m => k ++ m)
    { twilioAuthToken := some ("tok"), signalwireToken := none } ("/u") ("rawbody")
    { twilioSignature := none, signalwireSignature := none }
    twilioSentBody w5Storage ("c9") ("m9") 3).1 rfl rfl
  have hbadtw := (webhook_signature_gate (fun k m => k ++ m) (fun k m => k ++ m)
    { twilioAuthToken := some ("tok"), signalwireToken := none } ("/u") ("rawbody")
    { twilioSignature := some ("bad"), signalwireSignature := none }
    twilioSentBody w5Storage ("c9") ("m9") 3).2.1 ("bad") (by decide)
    (Or.inr (by
      intro tok htok
      have : tok = "tok" := by
        simp [jsOr] at htok
        exact htok.symm
      rw [this]
      decide))
  have hbadsw := (webhook_signature_gate (fun k m => k ++ m) (fun k m => k ++ m)
    { twilioAuthToken := some ("tok"), signalwireToken := none } ("/u") ("rawbody")
    { twilioSignature := none, signalwireSignature := some ("swsig") }
    twilioSentBody w5Storage ("c9") ("m9") 3).2.2 ("swsig") (by decide)
    (Or.inl (by decide))
  exact ⟨hopen.1, hopen.2, hbadtw.1, hbadsw.2⟩

/-! ## WebSocket subscription authorization (`server/routes.ts` 1737-1758) -/

inductive UserRole where
  | admin
  | team_member
deriving DecidableEq

/-- The authenticated user attached to a WebSocket session. -/
structure WsUser where
  id : String
  role : UserRole
deriving DecidableEq

inductive SubscribeReply where
  | errorNotFound
  | errorAccessDenied
  | subscribed (conversationId : String)
deriving DecidableEq

/-- The `subscribe` branch of the WebSocket message handler (`routes.ts`
1737-1758) for an authenticated session: look up the conversation; deny a
non-admin who is not the conversation's assigned user; otherwise add the
connection to the conversation's subscriber set and acknowledge.  `clients`
is the conversation-id to connection-set map; connections are `Nat` ids. -/
def handleSubscribe (s : Storage) (clients : String → List Nat) (user : WsUser)
    (connId : Nat) (conversationId : String) :
    (String → List Nat) × SubscribeReply :=
  match getConversation s conversationId with
  | none => (clients, SubscribeReply.errorNotFound)
  | some conversation =>
    if user.role ≠ UserRole.admin ∧ conversation.assignedUserId ≠ some user.id then
      (clients, SubscribeReply.errorAccessDenied)
    else
      (fun cid => if cid = conversationId then connId :: clients cid else clients cid,
       SubscribeReply.subscribed conversationId)

/-- A store in which conversation `c1` rides on phone number `p1`: the
conversation is assigned to `alice` while the phone number is assigned to
`bob`. -/
def w7Storage : Storage :=
  { phoneNumbers :=
      [{ id := "p1", number := "+14155551234", adminId := some ("a1"),
         assignedTo := some ("bob") }],
    conversations :=
      [{ id := "c1", contactNumber := "+19998887777", contactName := none,
         phoneNumberId := some ("p1"), assignedUserId := some ("alice"),
         category := "general", lastMessageAt := none,
         lastMessagePreview := none, unreadCount := 0,
         isPinned := false, isArchived := false }],
    messages := [], smsGateways := [] }

/-- Counterexample to C7 as stated: the subscribe handler checks the
conversation's `assignedUserId`, not the phone number's assignee.  Here the
conversation's phone number `p1` is assigned to `bob`, yet non-admin
`alice` (the conversation's assignee) receives `subscribed` and is added to
the subscriber set, where the claim requires an error and no registration. -/
theorem subscribe_denial_cex :
    (getConversation w7Storage ("c1")).map (fun c => c.phoneNumberId)
      = some (some ("p1")) ∧
    (getPhoneNumberByNumber w7Storage ("+14155551234")).map (fun p => p.assignedTo)
      = some (some ("bob")) ∧
    some ("bob") ≠ some ("alice") ∧
    (handleSubscribe w7Storage (fun _ => [])
        { id := "alice", role := UserRole.team_member } 7 ("c1")).2
      = SubscribeReply.subscribed ("c1") ∧
    (handleSubscribe w7Storage (fun _ => [])
        { id := "alice", role := UserRole.team_member } 7 ("c1")).1 ("c1")
      = [7] := by
  refine ⟨rfl, rfl, by decide, rfl, rfl⟩

/-- C7 (amended): for every authenticated non-admin session subscribing to a
conversation whose `assignedUserId` is not that user, the server replies
with an error and never `subscribed`, and the subscriber map is unchanged
(the access check is against the conversation's assigned user, not the
phone number's assignee); an unknown conversation id is likewise refused. -/
theorem subscribe_denial_spec (s : Storage) (clients : String → List Nat)
    (user : WsUser) (connId : Nat) (conversationId : String) :
    (getConversation s conversationId = none →
      handleSubscribe s clients user connId conversationId
        = (clients, SubscribeReply.errorNotFound)) ∧
    (∀ c, getConversation s conversationId = some c →
      user.role ≠ UserRole.admin → c.assignedUserId ≠ some user.id →
      handleSubscribe s clients user connId conversationId
        = (clients, SubscribeReply.errorAccessDenied)) := by
  constructor
  · intro h
    simp [handleSubscribe, h]
  · intro c hc hrole hassign
    simp [handleSubscribe, hc, hrole, hassign]

/-- Witness for `subscribe_denial_spec`: non-admin `bob` is denied on the
conversation assigned to `alice`, and an unknown conversation id is
refused. -/
theorem subscribe_denial_spec_witness :
    handleSubscribe w7Storage (fun _ => [])
        { id := "bob", role := UserRole.team_member } 7 ("c1")
      = ((fun _ => []), SubscribeReply.errorAccessDenied) ∧
    handleSubscribe w7Storage (fun _ => [])
        { id := "bob", role := UserRole.team_member } 7 ("cX")
      = ((fun _ => []), SubscribeReply.errorNotFound) := by
  constructor
  · exact (subscribe_denial_spec w7Storage (fun _ => [])
      { id := "bob", role := UserRole.team_member } 7 ("c1")).2
      { id := "c1", contactNumber := "+19998887777", contactName := none,
        phoneNumberId := some ("p1"), assignedUserId := some ("alice"),
        category := "general", lastMessageAt := none,
        lastMessagePreview := none, unreadCount := 0,
        isPinned := false, isArchived := false }
      (by decide) (by decide) (by decide)
  · exact (subscribe_denial_spec w7Storage (fun _ => [])
      { id := "bob", role := UserRole.team_member } 7 ("cX")).1 (by decide)

/-! ## Credential vault (`server/crypto.ts`) -/

/-- The authenticated cipher provided by Node `crypto`'s aes-256-gcm, over
byte lists: `enc`/`dec` are the length-preserving keystream transform
(`dec key iv` inverts `enc key iv`) and `mac` is the authentication tag,
modeled as an ideal MAC binding the nonce and the ciphertext; GCM's
`final()` throws whenever the supplied tag differs from the recomputed
one.  A hex string of the envelope is empty exactly when its byte list
is. -/
structure AeadCipher where
  enc : List Nat → List Nat → List Nat → List Nat
  dec : List Nat → List Nat → List Nat → List Nat
  mac : List Nat → List Nat → List Nat → List Nat
  dec_enc : ∀ key iv m, dec key iv (enc key iv m) = m
  enc_length : ∀ key iv m, (enc key iv m).length = m.length
  mac_inj : ∀ key iv iv2 c c2, mac key iv c = mac key iv2 c2 → iv = iv2 ∧ c = c2
  mac_nonempty : ∀ key iv c, mac key iv c ≠ []

/-- The parsed JSON envelope handled by the vault; a field is `none` when
absent from the parsed object. -/
structure SealedEnvelope where
  iv : Option (List Nat)
  data : Option (List Nat)
  tag : Option (List Nat)
  version : Option Nat
deriving DecidableEq

/-- `encryptCredentials` (`crypto.ts` 19-40): encrypt under the supplied
nonce and seal `{iv, data, tag, version: 1}`. -/
def encryptCredentials (A : AeadCipher) (key iv credentials : List Nat) :
    SealedEnvelope :=
  let encrypted := A.enc key iv credentials
  { iv := some iv, data := some encrypted,
    tag := some (A.mac key iv encrypted), version := some 1 }

/-- `decryptCredentials` (`crypto.ts` 42-67): parse the envelope, reject a
missing or empty (falsy) `iv`/`data`/`tag`, recompute the tag and compare
(GCM `final()`), then decrypt; every failure surfaces as the caught
"Failed to decrypt credentials" error. -/
def decryptCredentials (A : AeadCipher) (key : List Nat)
    (envelope : SealedEnvelope) : Except String (List Nat) :=
  match envelope.iv, envelope.data, envelope.tag with
  | some iv, some data, some tag =>
    if iv = [] ∨ data = [] ∨ tag = [] then
      Except.error "Failed to decrypt credentials"
    else if A.mac key iv data = tag then
      Except.ok (A.dec key iv data)
    else
      Except.error "Failed to decrypt credentials"
  | _, _, _ => Except.error "Failed to decrypt credentials"

/-- A concrete executable AEAD instantiating the vault theorems: a constant
keystream shift, with a self-describing tag (an ideal MAC). -/
def shiftCipher : AeadCipher :=
  { enc := fun key iv m => m.map (fun b => b + (key.sum + iv.sum + 1))
    dec := fun key iv c => c.map (fun b => b - (key.sum + iv.sum + 1))
    mac := fun _key iv c => iv.length :: (iv ++ c)
    dec_enc := by
      intro key iv m
      show List.map (fun b => b - (key.sum + iv.sum + 1))
          (List.map (fun b => b + (key.sum + iv.sum + 1)) m) = m
      induction m with
      | nil => rfl
      | cons a t ih => simp [ih]
    enc_length := by
      intro key iv m
      simp
    mac_inj := by
      intro key iv iv2 c c2 h
      injection h with h1 h2
      exact List.append_inj h2 h1
    mac_nonempty := by
      intro key iv c
      simp }

/-- C2 (amended): with the same key in effect,
`decryptCredentials (encryptCredentials x)` returns `x` for every NON-EMPTY
`x` (and every non-empty nonce, as produced by `randomBytes(16)`); altering
the sealed blob's iv, ciphertext, or auth tag yields an error, as does a
malformed envelope missing any of the iv/data/tag fields.  For the empty
string the vault rejects its own output: see `credential_vault_cex`. -/
theorem credential_vault_spec (A : AeadCipher) (key iv cred : List Nat)
    (hiv : iv ≠ []) (hcred : cred ≠ []) :
    decryptCredentials A key (encryptCredentials A key iv cred)
      = Except.ok cred ∧
    (∀ iv2, iv2 ≠ iv →
      decryptCredentials A key
          { encryptCredentials A key iv cred with iv := some iv2 }
        = Except.error "Failed to decrypt credentials") ∧
    (∀ d2, d2 ≠ A.enc key iv cred →
      decryptCredentials A key
          { encryptCredentials A key iv cred with data := some d2 }
        = Except.error "Failed to decrypt credentials") ∧
    (∀ t2, t2 ≠ A.mac key iv (A.enc key iv cred) →
      decryptCredentials A key
          { encryptCredentials A key iv cred with tag := some t2 }
        = Except.error "Failed to decrypt credentials") ∧
    (∀ e : SealedEnvelope, e.iv = none ∨ e.data = none ∨ e.tag = none →
      decryptCredentials A key e = Except.error "Failed to decrypt credentials") := by
  have hct : A.enc key iv cred ≠ [] := by
    intro h
    apply hcred
    apply List.eq_nil_of_length_eq_zero
    have hl := A.enc_length key iv cred
    rw [h] at hl
    exact hl.symm
  have htag : A.mac key iv (A.enc key iv cred) ≠ [] :=
    A.mac_nonempty key iv (A.enc key iv cred)
  refine ⟨?_, ?_, ?_, ?_, ?_⟩
  · simp [encryptCredentials, decryptCredentials, hiv, hct, htag, A.dec_enc]
  · intro iv2 hne
    by_cases h2 : iv2 = []
    · simp [encryptCredentials, decryptCredentials, h2]
    · have hmac : A.mac key iv2 (A.enc key iv cred)
          ≠ A.mac key iv (A.enc key iv cred) := by
        intro h
        exact hne (A.mac_inj key iv2 iv _ _ h).1
      simp [encryptCredentials, decryptCredentials, h2, hct, htag, hmac]
  · intro d2 hne
    by_cases h2 : d2 = []
    · simp [encryptCredentials, decryptCredentials, h2]
    · have hmac : A.mac key iv d2 ≠ A.mac key iv (A.enc key iv cred) := by
        intro h
        exact hne (A.mac_inj key iv iv _ _ h).2
      simp [encryptCredentials, decryptCredentials, h2, hiv, htag, hmac]
  · intro t2 hne
    by_cases h2 : t2 = []
    · simp [encryptCredentials, decryptCredentials, h2]
    · have hmac : A.mac key iv (A.enc key iv cred) ≠ t2 := fun h => hne h.symm
      simp [encryptCredentials, decryptCredentials, h2, hiv, hct, hmac]
  · intro e he
    obtain ⟨i, d, t, v⟩ := e
    rcases i with _ | iv1 <;> rcases d with _ | d1 <;> rcases t with _ | t1 <;>
      simp_all [decryptCredentials]

/-- Counterexample to C2 as stated ("for every string x"): encrypting the
empty credentials string yields an envelope whose `data` field is the empty
hex string, which the `!data` check of `decryptCredentials` rejects as
malformed, so decryption throws instead of returning the plaintext. -/
theorem credential_vault_cex :
    decryptCredentials shiftCipher [] (encryptCredentials shiftCipher [] [0] [])
      = Except.error "Failed to decrypt credentials" ∧
    decryptCredentials shiftCipher [] (encryptCredentials shiftCipher [] [0] [])
      ≠ Except.ok [] := by
  have h : decryptCredentials shiftCipher []
      (encryptCredentials shiftCipher [] [0] [])
      = Except.error "Failed to decrypt credentials" := rfl
  refine ⟨h, ?_⟩
  rw [h]
  intro hh
  exact Except.noConfusion hh

/-- Witness for `credential_vault_spec`: round trip and each tampering and
malformed-envelope case at concrete inputs under `shiftCipher`. -/
theorem credential_vault_spec_witness :
    decryptCredentials shiftCipher [1] (encryptCredentials shiftCipher [1] [2] [3, 4])
      = Except.ok [3, 4] ∧
    decryptCredentials shiftCipher [1]
        { encryptCredentials shiftCipher [1] [2] [3, 4] with iv := some [9] }
      = Except.error "Failed to decrypt credentials" ∧
    decryptCredentials shiftCipher [1]
        { encryptCredentials shiftCipher [1] [2] [3, 4] with data := some [9] }
      = Except.error "Failed to decrypt credentials" ∧
    decryptCredentials shiftCipher [1]
        { encryptCredentials shiftCipher [1] [2] [3, 4] with tag := some [0] }
      = Except.error "Failed to decrypt credentials" ∧
    decryptCredentials shiftCipher [1]
        { iv := none, data := none, tag := none, version := none }
      = Except.error "Failed to decrypt credentials" := by
  have h := credential_vault_spec shiftCipher [1] [2] [3, 4]
    (by decide) (by decide)
  exact ⟨h.1, h.2.1 [9] (by decide), h.2.2.1 [9] (by decide),
    h.2.2.2.1 [0] (by decide), h.2.2.2.2 _ (Or.inl rfl)⟩

/-! ## SignalWire provider retry policy
(`server/sms-providers/signalwire-provider.ts`) -/

/-- A provider operation as a small effect program: `request` performs one
underlying HTTP attempt (the fetch-and-parse closure handed to
`retryWithBackoff`, whose outcome `Except E A` is supplied by the
environment) and `sleep` is the `setTimeout` delay. -/
inductive NetProg (E A R : Type) where
  | pure (r : R)
  | request (k : Except E A → NetProg E A R)
  | sleep (ms : Nat) (k : NetProg E A R)

def NetProg.bind {E A R S : Type} :
    NetProg E A R → (R → NetProg E A S) → NetProg E A S
  | NetProg.pure r, f => f r
  | NetProg.request k, f => NetProg.request (fun o => NetProg.bind (k o) f)
  | NetProg.sleep ms k, f => NetProg.sleep ms (NetProg.bind k f)

/-- The loop body of `retryWithBackoff` (`signalwire-provider.ts` 3-21)
with `fuel` attempts remaining: run the attempt; on success return; on
failure, if attempts remain, sleep `baseDelayMs * 2 ^ attempt` and retry,
else rethrow the last error (`Except.error none` models the `undefined`
`lastError` of a zero-attempt call). -/
def retryLoop (E A : Type) (baseDelayMs : Nat) :
    Nat → Nat → NetProg E A (Except (Option E) A)
  | 0, _ => NetProg.pure (Except.error none)
  | fuel + 1, attempt =>
      NetProg.request (fun out =>
        match out with
        | Except.ok a => NetProg.pure (Except.ok a)
        | Except.error e =>
          match fuel with
          | 0 => NetProg.pure (Except.error (some e))
          | f + 1 =>
              NetProg.sleep (baseDelayMs * 2 ^ attempt)
                (retryLoop E A baseDelayMs (f + 1) (attempt + 1)))

/-- `retryWithBackoff(fn, maxAttempts, baseDelayMs)`; the call sites use
3 attempts and a 1000ms base delay. -/
def retryWithBackoff (E A : Type) (maxAttempts baseDelayMs : Nat) :
    NetProg E A (Except (Option E) A) :=
  retryLoop E A baseDelayMs maxAttempts 0

/-- The trace of running a provider program against an environment
`oracle` giving the outcome of each successive HTTP attempt: the result,
how many requests were performed, and the sleeps in order. -/
structure NetTrace (R : Type) where
  result : R
  requests : Nat
  sleeps : List Nat
deriving DecidableEq

def NetProg.run {E A R : Type} :
    NetProg E A R → (Nat → Except E A) → Nat → NetTrace R
  | NetProg.pure r, _, _ => { result := r, requests := 0, sleeps := [] }
  | NetProg.request k, oracle, i =>
      let t := NetProg.run (k (oracle i)) oracle (i + 1)
      { result := t.result, requests := t.requests + 1, sleeps := t.sleeps }
  | NetProg.sleep ms k, oracle, i =>
      let t := NetProg.run k oracle i
      { result := t.result, requests := t.requests, sleeps := ms :: t.sleeps }

theorem NetProg.run_bind_pure {E A R S : Type} (p : NetProg E A R) (g : R → S)
    (oracle : Nat → Except E A) (i : Nat) :
    NetProg.run (NetProg.bind p (fun r => NetProg.pure (g r))) oracle i
      = { result := g (NetProg.run p oracle i).result,
          requests := (NetProg.run p oracle i).requests,
          sleeps := (NetProg.run p oracle i).sleeps } := by
  induction p generalizing i with
  | pure r => rfl
  | request k ih => simp [NetProg.bind, NetProg.run, ih]
  | sleep ms k ih => simp [NetProg.bind, NetProg.run, ih]

theorem retry3_run (E A : Type) (base : Nat) (oracle : Nat → Except E A) :
    (∀ a, oracle 0 = Except.ok a →
      NetProg.run (retryWithBackoff E A 3 base) oracle 0
        = { result := Except.ok a, requests := 1, sleeps := [] }) ∧
    (∀ e0 a, oracle 0 = Except.error e0 → oracle 1 = Except.ok a →
      NetProg.run (retryWithBackoff E A 3 base) oracle 0
        = { result := Except.ok a, requests := 2, sleeps := [base] }) ∧
    (∀ e0 e1 a, oracle 0 = Except.error e0 → oracle 1 = Except.error e1 →
      oracle 2 = Except.ok a →
      NetProg.run (retryWithBackoff E A 3 base) oracle 0
        = { result := Except.ok a, requests := 3, sleeps := [base, base * 2] }) ∧
    (∀ e0 e1 e2, oracle 0 = Except.error e0 → oracle 1 = Except.error e1 →
      oracle 2 = Except.error e2 →
      NetProg.run (retryWithBackoff E A 3 base) oracle 0
        = { result := Except.error (some e2), requests := 3,
            sleeps := [base, base * 2] }) := by
  refine ⟨?_, ?_, ?_, ?_⟩
  · intro a h0
    simp [retryWithBackoff, retryLoop, NetProg.run, h0]
  · intro e0 a h0 h1
    simp [retryWithBackoff, retryLoop, NetProg.run, h0, h1]
  · intro e0 e1 a h0 h1 h2
    simp [retryWithBackoff, retryLoop, NetProg.run, h0, h1, h2, pow_succ]
  · intro e0 e1 e2 h0 h1 h2
    simp [retryWithBackoff, retryLoop, NetProg.run, h0, h1, h2, pow_succ]

/-- A SignalWire gateway's credentials. -/
structure SignalWireCredentials where
  projectId : String
  token : String
  spaceUrl : String
deriving DecidableEq

/-- `isConfigured` (`signalwire-provider.ts` 35-37): all three credential
fields truthy. -/
def signalWireIsConfigured (c : SignalWireCredentials) : Bool :=
  c.projectId != "" && c.token != "" && c.spaceUrl != ""

inductive ProviderOutcome (E A : Type) where
  | success (a : A)
  | notConfiguredError
  | requestError (e : Option E)

def retryResultOutcome {E A : Type} : Except (Option E) A → ProviderOutcome E A
  | Except.ok a => ProviderOutcome.success a
  | Except.error e => ProviderOutcome.requestError e

/-- `getAvailableNumbers` (`signalwire-provider.ts` 98-148): configuration
check, then the search request wrapped in `retryWithBackoff` with 3
attempts and 1000ms base delay; response parsing is folded into the
abstract request outcome. -/
def signalWireGetAvailableNumbers (E A : Type) (c : SignalWireCredentials) :
    NetProg E A (ProviderOutcome E A) :=
  if signalWireIsConfigured c then
    NetProg.bind (retryWithBackoff E A 3 1000)
      (fun r => NetProg.pure (retryResultOutcome r))
  else NetProg.pure ProviderOutcome.notConfiguredError

/-- `getOwnedNumbers` (`signalwire-provider.ts` 150-179): same retry
policy around the listing request. -/
def signalWireGetOwnedNumbers (E A : Type) (c : SignalWireCredentials) :
    NetProg E A (ProviderOutcome E A) :=
  if signalWireIsConfigured c then
    NetProg.bind (retryWithBackoff E A 3 1000)
      (fun r => NetProg.pure (retryResultOutcome r))
  else NetProg.pure ProviderOutcome.notConfiguredError

/-- `sendSms` (`signalwire-provider.ts` 214-257): configuration check and
a single, un-retried request. -/
def signalWireSendSms (E A : Type) (c : SignalWireCredentials) :
    NetProg E A (ProviderOutcome E A) :=
  if signalWireIsConfigured c then
    NetProg.request (fun out =>
      match out with
      | Except.ok a => NetProg.pure (ProviderOutcome.success a)
      | Except.error e => NetProg.pure (ProviderOutcome.requestError (some e)))
  else NetProg.pure ProviderOutcome.notConfiguredError

/-- C9: the SignalWire read operations (`getAvailableNumbers` and
`getOwnedNumbers`) invoke the underlying request at most 3 times, sleeping
1s after the first failure and 2s after the second, succeed as soon as an
attempt succeeds, and rethrow the last error when all 3 attempts fail;
`sendSms` performs exactly one attempt, never sleeps, and propagates the
first error. -/
theorem signalwire_retry_policy (E A : Type) (c : SignalWireCredentials)
    (oracle : Nat → Except E A) (hc : signalWireIsConfigured c = true) :
    ((NetProg.run (signalWireGetAvailableNumbers E A c) oracle 0).requests ≤ 3 ∧
     (NetProg.run (signalWireGetOwnedNumbers E A c) oracle 0).requests ≤ 3) ∧
    (∀ a, oracle 0 = Except.ok a →
      NetProg.run (signalWireGetAvailableNumbers E A c) oracle 0
        = { result := ProviderOutcome.success a, requests := 1, sleeps := [] } ∧
      NetProg.run (signalWireGetOwnedNumbers E A c) oracle 0
        = { result := ProviderOutcome.success a, requests := 1, sleeps := [] }) ∧
    (∀ e0 a, oracle 0 = Except.error e0 → oracle 1 = Except.ok a →
      NetProg.run (signalWireGetAvailableNumbers E A c) oracle 0
        = { result := ProviderOutcome.success a, requests := 2, sleeps := [1000] } ∧
      NetProg.run (signalWireGetOwnedNumbers E A c) oracle 0
        = { result := ProviderOutcome.success a, requests := 2, sleeps := [1000] }) ∧
    (∀ e0 e1 a, oracle 0 = Except.error e0 → oracle 1 = Except.error e1 →
      oracle 2 = Except.ok a →
      NetProg.run (signalWireGetAvailableNumbers E A c) oracle 0
        = { result := ProviderOutcome.success a, requests := 3,
            sleeps := [1000, 2000] } ∧
      NetProg.run (signalWireGetOwnedNumbers E A c) oracle 0
        = { result := ProviderOutcome.success a, requests := 3,
            sleeps := [1000, 2000] }) ∧
    (∀ e0 e1 e2, oracle 0 = Except.error e0 → oracle 1 = Except.error e1 →
      oracle 2 = Except.error e2 →
      NetProg.run (signalWireGetAvailableNumbers E A c) oracle 0
        = { result := ProviderOutcome.requestError (some e2), requests := 3,
            sleeps := [1000, 2000] } ∧
      NetProg.run (signalWireGetOwnedNumbers E A c) oracle 0
        = { result := ProviderOutcome.requestError (some e2), requests := 3,
            sleeps := [1000, 2000] }) ∧
    ((NetProg.run (signalWireSendSms E A c) oracle 0).requests = 1 ∧
     (NetProg.run (signalWireSendSms E A c) oracle 0).sleeps = []) ∧
    (∀ e0, oracle 0 = Except.error e0 →
      (NetProg.run (signalWireSendSms E A c) oracle 0).result
        = ProviderOutcome.requestError (some e0)) := by
  have havail : signalWireGetAvailableNumbers E A c
      = NetProg.bind (retryWithBackoff E A 3 1000)
          (fun r => NetProg.pure (retryResultOutcome r)) := by
    simp [signalWireGetAvailableNumbers, hc]
  have howned : signalWireGetOwnedNumbers E A c
      = NetProg.bind (retryWithBackoff E A 3 1000)
          (fun r => NetProg.pure (retryResultOutcome r)) := by
    simp [signalWireGetOwnedNumbers, hc]
  have hsend : signalWireSendSms E A c
      = NetProg.request (fun out =>
          match out with
          | Except.ok a => NetProg.pure (ProviderOutcome.success a)
          | Except.error e => NetProg.pure (ProviderOutcome.requestError (some e))) := by
    simp [signalWireSendSms, hc]
  have hretry := retry3_run E A 1000 oracle
  have hle : (NetProg.run (NetProg.bind (retryWithBackoff E A 3 1000)
      (fun r => NetProg.pure (retryResultOutcome r))) oracle 0).requests ≤ 3 := by
    rw [NetProg.run_bind_pure]
    cases h0 : oracle 0 with
    | ok a =>
        rw [hretry.1 a h0]
        simp
    | error e0 =>
        cases h1 : oracle 1 with
        | ok a =>
            rw [hretry.2.1 e0 a h0 h1]
            simp
        | error e1 =>
            cases h2 : oracle 2 with
            | ok a => rw [hretry.2.2.1 e0 e1 a h0 h1 h2]
            | error e2 => rw [hretry.2.2.2 e0 e1 e2 h0 h1 h2]
  refine ⟨⟨by rw [havail]; exact hle, by rw [howned]; exact hle⟩, ?_, ?_, ?_, ?_, ?_, ?_⟩
  · intro a h0
    rw [havail, howned, NetProg.run_bind_pure, hretry.1 a h0]
    exact ⟨rfl, rfl⟩
  · intro e0 a h0 h1
    rw [havail, howned, NetProg.run_bind_pure, hretry.2.1 e0 a h0 h1]
    exact ⟨rfl, rfl⟩
  · intro e0 e1 a h0 h1 h2
    rw [havail, howned, NetProg.run_bind_pure, hretry.2.2.1 e0 e1 a h0 h1 h2]
    exact ⟨rfl, rfl⟩
  · intro e0 e1 e2 h0 h1 h2
    rw [havail, howned, NetProg.run_bind_pure, hretry.2.2.2 e0 e1 e2 h0 h1 h2]
    exact ⟨rfl, rfl⟩
  · rw [hsend]
    cases h0 : oracle 0 <;> simp [NetProg.run, h0]
  · intro e0 h0
    rw [hsend]
    simp [NetProg.run, h0]

/-- Witness for `signalwire_retry_policy`: a configured provider against
an environment failing twice then succeeding, one failing always, and the
single-attempt send. -/
theorem signalwire_retry_policy_witness :
    NetProg.run (signalWireGetAvailableNumbers String Nat
        { projectId := "p", token := "t", spaceUrl := "s" })
        (fun i => if i = 0 then Except.error ("boom0")
                  else if i = 1 then Except.error ("boom1") else Except.ok 42) 0
      = { result := ProviderOutcome.success 42, requests := 3,
          sleeps := [1000, 2000] } ∧
    NetProg.run (signalWireGetOwnedNumbers String Nat
        { projectId := "p", token := "t", spaceUrl := "s" })
        (fun _ => Except.error ("boom")) 0
      = { result := ProviderOutcome.requestError (some ("boom")), requests := 3,
          sleeps := [1000, 2000] } ∧
    (NetProg.run (signalWireSendSms String Nat
        { projectId := "p", token := "t", spaceUrl := "s" })
        (fun i => if i = 0 then Except.error ("boom0")
                  else if i = 1 then Except.error ("boom1") else Except.ok 42)
        0).requests = 1 ∧
    (NetProg.run (signalWireSendSms String Nat
        { projectId := "p", token := "t", spaceUrl := "s" })
        (fun i => if i = 0 then Except.error ("boom0")
                  else if i = 1 then Except.error ("boom1") else Except.ok 42)
        0).result = ProviderOutcome.requestError (some ("boom0")) := by
  have hA := signalwire_retry_policy String Nat
    { projectId := "p", token := "t", spaceUrl := "s" }
    (fun i => if i = 0 then Except.error ("boom0")
              else if i = 1 then Except.error ("boom1") else Except.ok 42)
    (by decide)
  have hB := signalwire_retry_policy String Nat
    { projectId := "p", token := "t", spaceUrl := "s" }
    (fun _ => Except.error ("boom")) (by decide)
  refine ⟨?_, ?_, ?_, ?_⟩
  · exact (hA.2.2.2.1 ("boom0") ("boom1") 42 rfl rfl rfl).1
  · exact (hB.2.2.2.2.1 ("boom") ("boom") ("boom") rfl rfl rfl).2
  · exact hA.2.2.2.2.2.1.1
  · exact hA.2.2.2.2.2.2 ("boom0") rfl

end Conneclify




namespace Conneclify

/-- C3: after `setActiveSmsGateway(adminId, gatewayId)` completes for a
gateway that exists and is owned by that admin, exactly one of the admin's
gateways has `active=true`, namely the selected one; the activated row is
returned. -/
theorem setActiveSmsGateway_single_active (s : Storage) (adminId gatewayId : String)
    (now : Nat) (hids : (s.smsGateways.map (fun g => g.id)).Nodup)
    (g0 : SmsGateway) (hmem : g0 ∈ s.smsGateways) (hid : g0.id = gatewayId)
    (hadm : g0.adminId = adminId) :
    (((setActiveSmsGateway s adminId gatewayId now).1.smsGateways.filter
        (fun g => g.adminId == adminId && g.isActive)).map (fun g => g.id))
      = [gatewayId] ∧
    (∀ g2 ∈ (setActiveSmsGateway s adminId gatewayId now).1.smsGateways,
      g2.adminId = adminId → (g2.isActive = true ↔ g2.id = gatewayId)) ∧
    (∃ g2, (setActiveSmsGateway s adminId gatewayId now).2 = some g2 ∧
      g2.id = gatewayId ∧ g2.adminId = adminId ∧ g2.isActive = true) := by
  have hcomb := setActiveSmsGateway_gateways s adminId gatewayId now
  refine ⟨?_, ?_, ?_⟩
  · rw [hcomb]
    rw [List.filter_map]
    have hpred : ∀ g ∈ s.smsGateways,
        ((fun g => g.adminId == adminId && g.isActive) ∘ (fun g =>
          if g.adminId = adminId then
            (if g.id = gatewayId then { g with isActive := true, updatedAt := now }
             else { g with isActive := false, updatedAt := now })
          else g)) g = (g.id == gatewayId && g.adminId == adminId) := by
      intro g _
      simp only [Function.comp_apply]
      by_cases ha : g.adminId = adminId
      · by_cases hi : g.id = gatewayId
        · simp [ha, hi]
        · simp [ha, hi, beq_eq_false_iff_ne.mpr hi]
      · simp [ha, beq_eq_false_iff_ne.mpr ha]
    rw [List.filter_congr hpred]
    rw [filter_gateway_singleton s.smsGateways adminId gatewayId g0 hmem hid hadm hids]
    simp [hid, hadm]
  · rw [hcomb]
    intro g2 hg2 hadm2
    rcases List.mem_map.mp hg2 with ⟨g, hg, rfl⟩
    by_cases ha : g.adminId = adminId <;> by_cases hi : g.id = gatewayId <;>
      simp_all
  · have hret : (setActiveSmsGateway s adminId gatewayId now).2
        = (((setActiveSmsGateway s adminId gatewayId now).1.smsGateways).filter
            (fun g => g.id == gatewayId && g.adminId == adminId)).head? := by
      rfl
    rw [hret, hcomb, List.filter_map]
    have hpred : ∀ g ∈ s.smsGateways,
        ((fun g => g.id == gatewayId && g.adminId == adminId) ∘ (fun g =>
          if g.adminId = adminId then
            (if g.id = gatewayId then { g with isActive := true, updatedAt := now }
             else { g with isActive := false, updatedAt := now })
          else g)) g = (g.id == gatewayId && g.adminId == adminId) := by
      intro g _
      simp only [Function.comp_apply]
      by_cases ha : g.adminId = adminId
      · by_cases hi : g.id = gatewayId
        · simp [ha, hi]
        · simp [ha, hi, beq_eq_false_iff_ne.mpr hi]
      · simp [ha]
    rw [List.filter_congr hpred]
    rw [filter_gateway_singleton s.smsGateways adminId gatewayId g0 hmem hid hadm hids]
    refine ⟨_, rfl, ?_⟩
    simp [hadm, hid]

/-- C10: when `setActiveSmsGateway(adminId, gatewayId)` is called with a
gateway id that does not exist or is not owned by that admin, it returns
`undefined` but still sets `active=false` on every gateway of that admin and
activates none of them (no rollback, possibly zero active gateways). -/
theorem setActiveSmsGateway_missing_gateway (s : Storage) (adminId gatewayId : String)
    (now : Nat)
    (habsent : ∀ g ∈ s.smsGateways, ¬(g.id = gatewayId ∧ g.adminId = adminId)) :
    (setActiveSmsGateway s adminId gatewayId now).2 = none ∧
    (setActiveSmsGateway s adminId gatewayId now).1.smsGateways
      = s.smsGateways.map (fun g =>
          if g.adminId = adminId then
            { g with isActive := false, updatedAt := now }
          else g) ∧
    (∀ g2 ∈ (setActiveSmsGateway s adminId gatewayId now).1.smsGateways,
      g2.adminId = adminId → g2.isActive = false) := by
  have hcomb := setActiveSmsGateway_gateways s adminId gatewayId now
  have hgw : (setActiveSmsGateway s adminId gatewayId now).1.smsGateways
      = s.smsGateways.map (fun g =>
          if g.adminId = adminId then
            { g with isActive := false, updatedAt := now }
          else g) := by
    rw [hcomb]
    apply List.map_congr_left
    intro g hg
    by_cases ha : g.adminId = adminId <;> by_cases hi : g.id = gatewayId <;>
      simp_all [habsent g hg]
  refine ⟨?_, hgw, ?_⟩
  · have hret : (setActiveSmsGateway s adminId gatewayId now).2
        = (((setActiveSmsGateway s adminId gatewayId now).1.smsGateways).filter
            (fun g => g.id == gatewayId && g.adminId == adminId)).head? := rfl
    rw [hret, hgw]
    have : (s.smsGateways.map (fun g =>
        if g.adminId = adminId then
          { g with isActive := false, updatedAt := now }
        else g)).filter (fun g => g.id == gatewayId && g.adminId == adminId) = [] := by
      apply List.filter_eq_nil_iff.mpr
      intro x hx
      rcases List.mem_map.mp hx with ⟨g, hg, rfl⟩
      have := habsent g hg
      by_cases ha : g.adminId = adminId <;> simp_all
    rw [this]
    rfl
  · rw [hgw]
    intro g2 hg2 hadm2
    rcases List.mem_map.mp hg2 with ⟨g, hg, rfl⟩
    by_cases ha : g.adminId = adminId <;> simp_all

/-- Two gateways of one admin, the first currently active; used by the
gateway witnesses. -/
def w3Storage : Storage :=
  { phoneNumbers := [], conversations := [], messages := [],
    smsGateways :=
      [{ id := "gA", adminId := "a1", isActive := true, updatedAt := 0 },
       { id := "gB", adminId := "a1", isActive := false, updatedAt := 0 }] }

/-- Witness for `setActiveSmsGateway_single_active`: activating `gB` while
`gA` is active leaves exactly `gB` active. -/
theorem setActiveSmsGateway_single_active_witness :
    (((setActiveSmsGateway w3Storage ("a1") ("gB") 7).1.smsGateways.filter
        (fun g => g.adminId == "a1" && g.isActive)).map (fun g => g.id))
      = ["gB"] ∧
    (∃ g2, (setActiveSmsGateway w3Storage ("a1") ("gB") 7).2 = some g2 ∧
      g2.id = "gB" ∧ g2.adminId = "a1" ∧ g2.isActive = true) := by
  have h := setActiveSmsGateway_single_active w3Storage ("a1") ("gB") 7
    (by decide)
    { id := "gB", adminId := "a1", isActive := false, updatedAt := 0 }
    (by decide) (by decide) (by decide)
  exact ⟨h.1, h.2.2⟩

/-- Witness for `setActiveSmsGateway_missing_gateway`: activating an unknown
gateway id deactivates both gateways and returns nothing. -/
theorem setActiveSmsGateway_missing_gateway_witness :
    (setActiveSmsGateway w3Storage ("a1") ("gX") 7).2 = none ∧
    (∀ g2 ∈ (setActiveSmsGateway w3Storage ("a1") ("gX") 7).1.smsGateways,
      g2.adminId = "a1" → g2.isActive = false) := by
  have h := setActiveSmsGateway_missing_gateway w3Storage ("a1") ("gX") 7
    (by decide)
  exact ⟨h.1, h.2.2⟩


end Conneclify

